import Mathlib

/-! Verification of the connection-pool lifecycle and query-execution path of
`connection.py` (PostgresConnection, PostgresDriver) and of the `execute_sql`
tool of `postgres_server.py`.  The Python code is embedded as pure
state-passing functions; each call into the external asyncpg library (pool
creation, liveness probe, fetch, close) receives its outcome as an explicit
argument of type `DbResult`.  Python exceptions are values of `Exc`, tagged by
their class and carrying the text produced by `str(e)`. -/

/-- Outcome of one call into the asyncpg library: success, an
`asyncpg.PostgresError` carrying its message, or any other exception
carrying its message. -/
inductive DbResult (α : Type) where
  | ok (a : α)
  | pgError (msg : String)
  | otherError (msg : String)
deriving Repr, DecidableEq

/-- Python exception values reaching the embedded code, tagged by class and
carrying the text of `str(e)`. -/
inductive Exc where
  | connectionError (msg : String)
  | valueError (msg : String)
  | runtimeError (msg : String)
  | pgError (msg : String)
  | otherError (msg : String)
deriving Repr, DecidableEq

/-- The text `str(e)` of an exception value. -/
def Exc.msg : Exc → String
  | .connectionError m => m
  | .valueError m => m
  | .runtimeError m => m
  | .pgError m => m
  | .otherError m => m

/-- Tests whether an exception value is of the Python class
`ConnectionError`. -/
def Exc.isConnectionError : Exc → Bool
  | .connectionError _ => true
  | _ => false

/-- Tests whether an exception value is of the Python class `ValueError`. -/
def Exc.isValueError : Exc → Bool
  | .valueError _ => true
  | _ => false

/-- Embeds the dataclass `PostgresConfig` of connection.py. -/
structure PostgresConfig where
  host : String
  port : Nat
  user : String
  password : String
  database : String
deriving Repr, DecidableEq

/-- An asyncpg pool object, identified by the allocation that created it, so
that distinct `create_pool` calls yield distinguishable pools. -/
structure Pool where
  id : Nat
deriving Repr, DecidableEq

/-- A database value inside a fetched row. -/
inductive Value where
  | int (n : Int)
  | str (s : String)
  | null
deriving Repr, DecidableEq

/-- One raw record returned by `conn.fetch`, as the mapping `dict(row)`. -/
abbrev RawRow := List (String × Value)

/-- Embeds `PostgresDriver.RowResult` of connection.py. -/
structure RowResult where
  cells : RawRow
deriving Repr, DecidableEq

/-- Embeds the state of a `PostgresConnection` object: its config and the
`self.pool` field, `none` when the pool is unset. -/
structure PostgresConnection where
  config : PostgresConfig
  pool : Option Pool
deriving Repr, DecidableEq

/-- Embeds `PostgresConnection.connect`.  The code runs
`self.pool = await asyncpg.create_pool(...)` (outcome `cp`), then the
liveness probe `SELECT 1` on an acquired connection (outcome `pr`),
returns `self.pool` on success, and wraps any `asyncpg.PostgresError`
as `ConnectionError ("Failed to connect to PostgreSQL: " ++ msg)` and any
other exception as `ConnectionError ("Failed to connect to database: " ++ msg)`.
Note that the assignment to `self.pool` happens before the probe and is not
undone on failure. -/
def PostgresConnection.connect (cp : DbResult Pool) (pr : DbResult Unit)
    (c : PostgresConnection) : Except Exc Pool × PostgresConnection :=
  match cp with
  | .ok p =>
    let c1 : PostgresConnection := { c with pool := some p }
    match pr with
    | .ok _ => (Except.ok p, c1)
    | .pgError m =>
      (Except.error (Exc.connectionError ("Failed to connect to PostgreSQL: " ++ m)), c1)
    | .otherError m =>
      (Except.error (Exc.connectionError ("Failed to connect to database: " ++ m)), c1)
  | .pgError m =>
    (Except.error (Exc.connectionError ("Failed to connect to PostgreSQL: " ++ m)), c)
  | .otherError m =>
    (Except.error (Exc.connectionError ("Failed to connect to database: " ++ m)), c)

/-- Embeds `PostgresConnection.disconnect`.  The code is
`if self.pool: await self.pool.close()` with no try/except and no clearing of
`self.pool`; `cl` is the outcome of `self.pool.close()`. -/
def PostgresConnection.disconnect (cl : DbResult Unit) (c : PostgresConnection) :
    Except Exc Unit × PostgresConnection :=
  match c.pool with
  | none => (Except.ok (), c)
  | some _ =>
    match cl with
    | .ok _ => (Except.ok (), c)
    | .pgError m => (Except.error (Exc.pgError m), c)
    | .otherError m => (Except.error (Exc.otherError m), c)

/-- Embeds the state of a `PostgresDriver` object: the `self.connection` and
`self.config` fields, each possibly `None`. -/
structure PostgresDriver where
  connection : Option PostgresConnection
  config : Option PostgresConfig
deriving Repr, DecidableEq

/-- Embeds the synchronous `PostgresDriver.connect`: return `self.connection`
if set; otherwise build a fresh `PostgresConnection(self.config)` when a
config is present; otherwise raise
`ValueError("No connection or config provided.")`. -/
def PostgresDriver.connect (d : PostgresDriver) :
    Except Exc PostgresConnection × PostgresDriver :=
  match d.connection with
  | some c => (Except.ok c, d)
  | none =>
    match d.config with
    | some cfg =>
      let c : PostgresConnection := { config := cfg, pool := none }
      (Except.ok c, { d with connection := some c })
    | none => (Except.error (Exc.valueError "No connection or config provided."), d)

/-- Embeds the parameter normalization `if not params: params = []` of
`execute_query`: a missing list becomes the empty list (an empty list is
already empty). -/
def normalizeParams : Option (List Value) → List Value
  | none => []
  | some ps => ps

/-- Embeds the two except-clauses of `execute_query`: an
`asyncpg.PostgresError` is re-raised as
`RuntimeError("PostgreSQL error: " ++ str e)`, every other exception as
`RuntimeError("Failed to execute query: " ++ str e)`. -/
def wrapQueryExc (e : Exc) : Exc :=
  match e with
  | .pgError m => Exc.runtimeError ("PostgreSQL error: " ++ m)
  | e => Exc.runtimeError ("Failed to execute query: " ++ e.msg)

/-- Embeds the acquire/fetch/row-mapping segment of `execute_query`:
`result = await conn.fetch(query, *params)` followed by
`rows = [RowResult(dict(row)) for row in result]`.  The function `fq` gives
the outcome of the fetch for the normalized parameter list. -/
def fetchRows (fq : List Value → DbResult (List RawRow))
    (params : Option (List Value)) : Except Exc (List RowResult) :=
  match fq (normalizeParams params) with
  | .ok raws => Except.ok (raws.map RowResult.mk)
  | .pgError m => Except.error (Exc.pgError m)
  | .otherError m => Except.error (Exc.otherError m)

/-- Embeds the segment of `execute_query` that runs once a
`PostgresConnection` object `c` is in hand: read `self.connection.pool`; when
it is unset call `pool = await self.connection.connect()` (mutating the
shared connection object, written back into the driver state); then fetch
against the live pool. -/
def executeWithConn (cp : DbResult Pool) (pr : DbResult Unit)
    (fr : String → Pool → List Value → DbResult (List RawRow))
    (query : String) (params : Option (List Value))
    (c : PostgresConnection) (d : PostgresDriver) :
    Except Exc (List RowResult) × PostgresDriver :=
  match c.pool with
  | some p => (fetchRows (fr query p) params, d)
  | none =>
    match PostgresConnection.connect cp pr c with
    | (Except.error e, c1) => (Except.error e, { d with connection := some c1 })
    | (Except.ok p, c1) => (fetchRows (fr query p) params, { d with connection := some c1 })

/-- Embeds the try-block body of `PostgresDriver.execute_query`: when
`self.connection is None` call `self.connect()` and re-check, raising
`ConnectionError("Database connection not established")` if still `None`;
then proceed with the connection in hand. -/
def executeQueryBody (cp : DbResult Pool) (pr : DbResult Unit)
    (fr : String → Pool → List Value → DbResult (List RawRow))
    (query : String) (params : Option (List Value)) (d : PostgresDriver) :
    Except Exc (List RowResult) × PostgresDriver :=
  match d.connection with
  | none =>
    match PostgresDriver.connect d with
    | (Except.error e, d1) => (Except.error e, d1)
    | (Except.ok _, d1) =>
      match d1.connection with
      | none =>
        (Except.error (Exc.connectionError "Database connection not established"), d1)
      | some c => executeWithConn cp pr fr query params c d1
  | some c => executeWithConn cp pr fr query params c d

/-- Embeds `PostgresDriver.execute_query`: run the try-block body and push
every raised exception through the two except-clauses (`wrapQueryExc`).  The
Python return type is `Optional[List[RowResult]]`, so a normal return is
embedded as `Except.ok (some rows)`. -/
def PostgresDriver.execute_query (cp : DbResult Pool) (pr : DbResult Unit)
    (fr : String → Pool → List Value → DbResult (List RawRow))
    (query : String) (params : Option (List Value)) (d : PostgresDriver) :
    Except Exc (Option (List RowResult)) × PostgresDriver :=
  match executeQueryBody cp pr fr query params d with
  | (Except.ok rows, d1) => (Except.ok (some rows), d1)
  | (Except.error e, d1) => (Except.error (wrapQueryExc e), d1)

/-- Response shapes of the `execute_sql` tool of postgres_server.py: the
"No results" branch taken when `rows is None`, the formatted row list, or
the formatted error text. -/
inductive SqlResponse where
  | noResults
  | rows (cells : List RawRow)
  | error (msg : String)
deriving Repr, DecidableEq

/-- Embeds the `execute_sql` tool of postgres_server.py: call
`execute_query`, answer "No results" when the result is `None`, otherwise
format the list of `r.cells`; any exception becomes an error response built
from `str(e)`. -/
def execute_sql (cp : DbResult Pool) (pr : DbResult Unit)
    (fr : String → Pool → List Value → DbResult (List RawRow))
    (sql : String) (d : PostgresDriver) : SqlResponse × PostgresDriver :=
  match PostgresDriver.execute_query cp pr fr sql none d with
  | (Except.ok none, d1) => (SqlResponse.noResults, d1)
  | (Except.ok (some rows), d1) => (SqlResponse.rows (rows.map RowResult.cells), d1)
  | (Except.error e, d1) => (SqlResponse.error ("Error: " ++ e.msg), d1)

/-- Example config used by concrete witnesses. -/
def cfg0 : PostgresConfig :=
  { host := "localhost", port := 5432, user := "u", password := "p", database := "d" }

/-- Example pool used by concrete witnesses. -/
def pool0 : Pool := { id := 1 }

/-- Example connection manager holding a live pool. -/
def conn0 : PostgresConnection := { config := cfg0, pool := some pool0 }

/-- Example driver bound to a live manager. -/
def drv0 : PostgresDriver := { connection := some conn0, config := some cfg0 }

/-- Example fetch behavior that always succeeds with zero rows. -/
def frEmpty : String → Pool → List Value → DbResult (List RawRow) :=
  fun _ _ _ => DbResult.ok []

/-- C1: when the driver holds a live pool and the database rejects the
statement during execution (an `asyncpg.PostgresError` with message `m`),
`execute_query` fails with the query-error kind — the
`RuntimeError ("PostgreSQL error: " ++ m)` raised by the PostgresError
except-clause — and when any other exception with message `m` occurs during
execution it fails with the generic execution-error kind
`RuntimeError ("Failed to execute query: " ++ m)`; in both cases the
underlying driver message `m` is preserved verbatim as a suffix, hence as a
substring, of the raised message. -/
theorem c1_execute_error_translation (cp : DbResult Pool) (pr : DbResult Unit)
    (fr : String → Pool → List Value → DbResult (List RawRow))
    (q : String) (ps : Option (List Value)) (d : PostgresDriver)
    (c : PostgresConnection) (p : Pool)
    (hc : d.connection = some c) (hp : c.pool = some p) :
    (∀ m, fr q p (normalizeParams ps) = DbResult.pgError m →
      PostgresDriver.execute_query cp pr fr q ps d =
        (Except.error (Exc.runtimeError ("PostgreSQL error: " ++ m)), d)) ∧
    (∀ m, fr q p (normalizeParams ps) = DbResult.otherError m →
      PostgresDriver.execute_query cp pr fr q ps d =
        (Except.error (Exc.runtimeError ("Failed to execute query: " ++ m)), d)) := by
  constructor <;> intro m hm <;>
    simp [PostgresDriver.execute_query, executeQueryBody, executeWithConn, hc, hp,
      fetchRows, hm, wrapQueryExc, Exc.msg]

/-- C1 witness: a concrete driver with a live pool, a fetch raising an
`asyncpg.PostgresError` with message "syntax error", and the resulting
wrapped query error. -/
theorem c1_witness :
    drv0.connection = some conn0 ∧ conn0.pool = some pool0 ∧
    PostgresDriver.execute_query (DbResult.ok pool0) (DbResult.ok ())
      (fun _ _ _ => DbResult.pgError "syntax error") "SELECT x" none drv0 =
      (Except.error (Exc.runtimeError ("PostgreSQL error: " ++ "syntax error")), drv0) :=
  ⟨rfl, rfl,
    (c1_execute_error_translation (DbResult.ok pool0) (DbResult.ok ())
      (fun _ _ _ => DbResult.pgError "syntax error") "SELECT x" none drv0 conn0 pool0
      rfl rfl).1 "syntax error" rfl⟩

/-- C2 counterexample: a manager that already stores pool 1 and whose second
`connect()` call has `create_pool` produce pool 2 does not reuse pool 1: the
second call returns pool 2 and overwrites the stored reference with pool 2,
so a second pool was created. -/
theorem c2_counter :
    PostgresConnection.connect (DbResult.ok { id := 2 }) (DbResult.ok ())
      { config := cfg0, pool := some { id := 1 } } =
      (Except.ok { id := 2 }, { config := cfg0, pool := some { id := 2 } }) ∧
    ({ id := 2 } : Pool) ≠ { id := 1 } := by
  constructor
  · rfl
  · decide

/-- C2 amended: `PostgresConnection.connect` never reuses an existing pool:
whatever the stored pool field holds, a call whose `create_pool` succeeds
with pool `p` returns `p` and overwrites the stored field with `p`; the
previously stored pool is dropped without being closed. -/
theorem c2_connect_always_creates_pool (c : PostgresConnection) (p : Pool) :
    PostgresConnection.connect (DbResult.ok p) (DbResult.ok ()) c =
      (Except.ok p, { c with pool := some p }) := rfl

/-- C3 counterexample: starting from a manager with no pool, a `connect()`
call whose `create_pool` succeeds with pool 1 but whose liveness probe fails
raises a `ConnectionError` wrapping the cause, yet leaves the freshly
created pool 1 stored in the manager — the half-initialized pool is
retained, not discarded. -/
theorem c3_counter :
    PostgresConnection.connect (DbResult.ok { id := 1 }) (DbResult.pgError "auth failed")
      { config := cfg0, pool := none } =
      (Except.error (Exc.connectionError ("Failed to connect to PostgreSQL: " ++ "auth failed")),
        { config := cfg0, pool := some { id := 1 } }) := rfl

/-- C3 amended: every failing `connect()` raises a `ConnectionError` whose
message ends with the underlying cause, but the pool field is not reset: when
`create_pool` itself fails the field keeps its previous value, and when the
liveness probe fails the field is left holding the freshly created pool. -/
theorem c3_connect_failure_wrapped (c : PostgresConnection) :
    (∀ m pr, PostgresConnection.connect (DbResult.pgError m) pr c =
      (Except.error (Exc.connectionError ("Failed to connect to PostgreSQL: " ++ m)), c)) ∧
    (∀ m pr, PostgresConnection.connect (DbResult.otherError m) pr c =
      (Except.error (Exc.connectionError ("Failed to connect to database: " ++ m)), c)) ∧
    (∀ p m, PostgresConnection.connect (DbResult.ok p) (DbResult.pgError m) c =
      (Except.error (Exc.connectionError ("Failed to connect to PostgreSQL: " ++ m)),
        { c with pool := some p })) ∧
    (∀ p m, PostgresConnection.connect (DbResult.ok p) (DbResult.otherError m) c =
      (Except.error (Exc.connectionError ("Failed to connect to database: " ++ m)),
        { c with pool := some p })) :=
  ⟨fun _ _ => rfl, fun _ _ => rfl, fun _ _ => rfl, fun _ _ => rfl⟩

/-- Helper: a successful `fetchRows` comes exactly from a successful fetch,
with the rows being the mapped raw records. -/
theorem fetchRows_ok_iff (fq : List Value → DbResult (List RawRow))
    (ps : Option (List Value)) (rows : List RowResult) :
    fetchRows fq ps = Except.ok rows ↔
      ∃ raws, fq (normalizeParams ps) = DbResult.ok raws ∧ rows = raws.map RowResult.mk := by
  unfold fetchRows
  cases h : fq (normalizeParams ps) with
  | ok raws => simp [h, eq_comm]
  | pgError m => simp [h]
  | otherError m => simp [h]

/-- Helper: a successful `executeWithConn` ends with the driver holding a
manager with a live pool, against which the fetch succeeded. -/
theorem executeWithConn_ok (cp : DbResult Pool) (pr : DbResult Unit)
    (fr : String → Pool → List Value → DbResult (List RawRow))
    (q : String) (ps : Option (List Value)) (c : PostgresConnection)
    (d d1 : PostgresDriver) (rows : List RowResult)
    (hdc : d.connection = some c)
    (h : executeWithConn cp pr fr q ps c d = (Except.ok rows, d1)) :
    ∃ p c1 raws, d1.connection = some c1 ∧ c1.pool = some p ∧
      fr q p (normalizeParams ps) = DbResult.ok raws ∧ rows = raws.map RowResult.mk := by
  obtain ⟨ccfg, cpool⟩ := c
  cases cpool with
  | some p =>
    simp [executeWithConn] at h
    obtain ⟨hf, hd⟩ := h
    obtain ⟨raws, hfq, hrows⟩ := (fetchRows_ok_iff _ _ _).mp hf
    exact ⟨p, ⟨ccfg, some p⟩, raws, by rw [← hd]; exact hdc, rfl, hfq, hrows⟩
  | none =>
    cases cp with
    | ok p =>
      cases pr with
      | ok u =>
        simp [executeWithConn, PostgresConnection.connect] at h
        obtain ⟨hf, hd⟩ := h
        obtain ⟨raws, hfq, hrows⟩ := (fetchRows_ok_iff _ _ _).mp hf
        refine ⟨p, ⟨ccfg, some p⟩, raws, ?_, rfl, hfq, hrows⟩
        rw [← hd]
      | pgError m => simp [executeWithConn, PostgresConnection.connect] at h
      | otherError m => simp [executeWithConn, PostgresConnection.connect] at h
    | pgError m => simp [executeWithConn, PostgresConnection.connect] at h
    | otherError m => simp [executeWithConn, PostgresConnection.connect] at h

/-- Helper: a successful try-block body of `execute_query` ends with a live
pool in the final driver state and a successful fetch producing the rows. -/
theorem executeQueryBody_ok (cp : DbResult Pool) (pr : DbResult Unit)
    (fr : String → Pool → List Value → DbResult (List RawRow))
    (q : String) (ps : Option (List Value)) (d d1 : PostgresDriver)
    (rows : List RowResult)
    (h : executeQueryBody cp pr fr q ps d = (Except.ok rows, d1)) :
    ∃ p c1 raws, d1.connection = some c1 ∧ c1.pool = some p ∧
      fr q p (normalizeParams ps) = DbResult.ok raws ∧ rows = raws.map RowResult.mk := by
  obtain ⟨dc, dcfg⟩ := d
  cases dc with
  | some c =>
    exact executeWithConn_ok cp pr fr q ps c ⟨some c, dcfg⟩ d1 rows rfl
      (by simpa [executeQueryBody] using h)
  | none =>
    cases dcfg with
    | none => simp [executeQueryBody, PostgresDriver.connect] at h
    | some cfg =>
      exact executeWithConn_ok cp pr fr q ps ⟨cfg, none⟩ ⟨some ⟨cfg, none⟩, some cfg⟩ d1 rows rfl
        (by simpa [executeQueryBody, PostgresDriver.connect] using h)

/-- Helper: the try-block body never changes the config field of the
driver. -/
theorem executeQueryBody_config (cp : DbResult Pool) (pr : DbResult Unit)
    (fr : String → Pool → List Value → DbResult (List RawRow))
    (q : String) (ps : Option (List Value)) (d : PostgresDriver) :
    (executeQueryBody cp pr fr q ps d).2.config = d.config := by
  obtain ⟨dc, dcfg⟩ := d
  cases dc with
  | some c =>
    obtain ⟨ccfg, cpool⟩ := c
    cases cpool <;> cases cp <;> cases pr <;>
      simp [executeQueryBody, executeWithConn, PostgresConnection.connect]
  | none =>
    cases dcfg with
    | none => simp [executeQueryBody, PostgresDriver.connect]
    | some cfg =>
      cases cp <;> cases pr <;>
        simp [executeQueryBody, PostgresDriver.connect, executeWithConn,
          PostgresConnection.connect]

/-- Helper: `execute_query` never changes the config field of the driver. -/
theorem execute_query_config (cp : DbResult Pool) (pr : DbResult Unit)
    (fr : String → Pool → List Value → DbResult (List RawRow))
    (q : String) (ps : Option (List Value)) (d : PostgresDriver) :
    (PostgresDriver.execute_query cp pr fr q ps d).2.config = d.config := by
  have hb := executeQueryBody_config cp pr fr q ps d
  unfold PostgresDriver.execute_query
  rcases h : executeQueryBody cp pr fr q ps d with ⟨res, d1⟩
  rw [h] at hb
  cases res <;> simpa using hb

/-- Helper: when the driver already holds a manager, the body keeps that
manager in place, at most updating its pool field in place; the config of
the stored manager is preserved. -/
theorem executeQueryBody_connection (cp : DbResult Pool) (pr : DbResult Unit)
    (fr : String → Pool → List Value → DbResult (List RawRow))
    (q : String) (ps : Option (List Value)) (d : PostgresDriver)
    (c : PostgresConnection) (hdc : d.connection = some c) :
    ∃ pl, (executeQueryBody cp pr fr q ps d).2.connection =
      some { config := c.config, pool := pl } := by
  obtain ⟨dc, dcfg⟩ := d
  obtain ⟨ccfg, cpool⟩ := c
  cases dc with
  | none => simp at hdc
  | some c0 =>
    have hc0 : c0 = ⟨ccfg, cpool⟩ := by simpa using hdc
    subst hc0
    cases cpool with
    | some p =>
      exact ⟨some p, by simp [executeQueryBody, executeWithConn]⟩
    | none =>
      cases cp with
      | ok p =>
        cases pr with
        | ok u =>
          exact ⟨some p, by simp [executeQueryBody, executeWithConn,
            PostgresConnection.connect]⟩
        | pgError m =>
          exact ⟨some p, by simp [executeQueryBody, executeWithConn,
            PostgresConnection.connect]⟩
        | otherError m =>
          exact ⟨some p, by simp [executeQueryBody, executeWithConn,
            PostgresConnection.connect]⟩
      | pgError m =>
        exact ⟨none, by simp [executeQueryBody, executeWithConn,
          PostgresConnection.connect]⟩
      | otherError m =>
        exact ⟨none, by simp [executeQueryBody, executeWithConn,
          PostgresConnection.connect]⟩

/-- C4: a statement whose execution succeeds with zero rows makes
`execute_query` return the empty list wrapped in `some` — never an error and
never the absent value `none`.  First conjunct: with a live pool the call
returns exactly `Except.ok (some [])` and leaves the state unchanged.
Second conjunct: on every path, if the fetch yields zero rows and the call
returns normally, the returned optional value is `some []`. -/
theorem c4_zero_rows_empty_list (cp : DbResult Pool) (pr : DbResult Unit)
    (fr : String → Pool → List Value → DbResult (List RawRow))
    (q : String) (ps : Option (List Value)) (d : PostgresDriver) :
    (∀ c p, d.connection = some c → c.pool = some p →
      fr q p (normalizeParams ps) = DbResult.ok [] →
      PostgresDriver.execute_query cp pr fr q ps d = (Except.ok (some []), d)) ∧
    (∀ o d1, (∀ p, fr q p (normalizeParams ps) = DbResult.ok []) →
      PostgresDriver.execute_query cp pr fr q ps d = (Except.ok o, d1) →
      o = some []) := by
  constructor
  · intro c p hdc hp hfq
    simp [PostgresDriver.execute_query, executeQueryBody, executeWithConn, hdc, hp,
      fetchRows, hfq]
  · intro o d1 hfr h
    unfold PostgresDriver.execute_query at h
    rcases hb : executeQueryBody cp pr fr q ps d with ⟨res, d2⟩
    rw [hb] at h
    cases res with
    | ok rows =>
      simp at h
      obtain ⟨p, c1, raws, _, _, hfq, hrows⟩ :=
        executeQueryBody_ok cp pr fr q ps d d2 rows hb
      rw [hfr p] at hfq
      cases hfq
      rw [← h.1, hrows]
      simp
    | error e => simp at h

/-- C4 witness: a concrete driver with a live pool and a zero-row fetch,
returning the empty row list. -/
theorem c4_witness :
    drv0.connection = some conn0 ∧ conn0.pool = some pool0 ∧
    frEmpty "SELECT 1" pool0 (normalizeParams none) = DbResult.ok [] ∧
    PostgresDriver.execute_query (DbResult.ok pool0) (DbResult.ok ()) frEmpty
      "SELECT 1" none drv0 = (Except.ok (some []), drv0) :=
  ⟨rfl, rfl, rfl,
    (c4_zero_rows_empty_list (DbResult.ok pool0) (DbResult.ok ()) frEmpty
      "SELECT 1" none drv0).1 conn0 pool0 rfl rfl rfl⟩

/-- C5: a driver constructed with a config but no manager establishes the
connection by itself on the first `execute_query` call: it builds a fresh
manager from the config, calls `connect()` to create and probe the pool, and
then runs the statement — no explicit `connect()` call by the caller is
needed.  The final state holds the manager with the freshly created live
pool. -/
theorem c5_lazy_connect (cfg : PostgresConfig) (p : Pool)
    (fr : String → Pool → List Value → DbResult (List RawRow))
    (q : String) (ps : Option (List Value)) (raws : List RawRow)
    (hfq : fr q p (normalizeParams ps) = DbResult.ok raws) :
    PostgresDriver.execute_query (DbResult.ok p) (DbResult.ok ()) fr q ps
      { connection := none, config := some cfg } =
      (Except.ok (some (raws.map RowResult.mk)),
        { connection := some { config := cfg, pool := some p }, config := some cfg }) := by
  simp [PostgresDriver.execute_query, executeQueryBody, PostgresDriver.connect,
    executeWithConn, PostgresConnection.connect, fetchRows, hfq]

/-- C5 witness: a concrete config-only driver whose first call creates the
pool and returns the rows. -/
theorem c5_witness :
    frEmpty "SELECT 1" pool0 (normalizeParams none) = DbResult.ok [] ∧
    PostgresDriver.execute_query (DbResult.ok pool0) (DbResult.ok ()) frEmpty
      "SELECT 1" none { connection := none, config := some cfg0 } =
      (Except.ok (some []),
        { connection := some { config := cfg0, pool := some pool0 }, config := some cfg0 }) :=
  ⟨rfl, c5_lazy_connect cfg0 pool0 frEmpty "SELECT 1" none [] rfl⟩

/-- C6 counterexample: on a manager holding pool 1, a `disconnect()` whose
close succeeds leaves the stored pool reference set (it is not cleared), and
a `disconnect()` whose close raises propagates the error to the caller —
refuting both the clearing and the never-propagates parts of the claim. -/
theorem c6_counter :
    PostgresConnection.disconnect (DbResult.ok ()) conn0 = (Except.ok (), conn0) ∧
    conn0.pool = some pool0 ∧
    PostgresConnection.disconnect (DbResult.pgError "close failed") conn0 =
      (Except.error (Exc.pgError "close failed"), conn0) :=
  ⟨rfl, rfl, rfl⟩

/-- C6 amended: `disconnect()` closes the pooled connections when a pool
exists and is a no-op when none exists, but it never clears the stored pool
reference (the state is returned unchanged in every case), and an error
raised by the underlying close propagates to the caller unwrapped. -/
theorem c6_disconnect_behavior (c : PostgresConnection) (cl : DbResult Unit) :
    (c.pool = none → PostgresConnection.disconnect cl c = (Except.ok (), c)) ∧
    (∀ p, c.pool = some p → cl = DbResult.ok () →
      PostgresConnection.disconnect cl c = (Except.ok (), c)) ∧
    (∀ p m, c.pool = some p → cl = DbResult.pgError m →
      PostgresConnection.disconnect cl c = (Except.error (Exc.pgError m), c)) ∧
    (∀ p m, c.pool = some p → cl = DbResult.otherError m →
      PostgresConnection.disconnect cl c = (Except.error (Exc.otherError m), c)) := by
  obtain ⟨ccfg, cpool⟩ := c
  cases cpool <;> cases cl <;>
    refine ⟨?_, ?_, ?_, ?_⟩ <;> intros <;> simp_all [PostgresConnection.disconnect]

/-- C6 witness: the amended theorem applied to a concrete manager with a live
pool and a successful close. -/
theorem c6_witness :
    conn0.pool = some pool0 ∧
    PostgresConnection.disconnect (DbResult.ok ()) conn0 = (Except.ok (), conn0) :=
  ⟨rfl, (c6_disconnect_behavior conn0 (DbResult.ok ())).2.1 pool0 rfl rfl⟩

/-- C7 counterexample: a driver with neither manager nor config fails, but
not with a `ConnectionError` containing "connection not established": the
inner `ValueError` is caught by the catch-all except-clause of
`execute_query` and the call surfaces
`RuntimeError "Failed to execute query: No connection or config provided."`,
whose kind and message both refute the claim. -/
theorem c7_counter :
    PostgresDriver.execute_query (DbResult.ok pool0) (DbResult.ok ()) frEmpty
      "SELECT 1" none { connection := none, config := none } =
      (Except.error
        (Exc.runtimeError "Failed to execute query: No connection or config provided."),
        { connection := none, config := none }) ∧
    Exc.isConnectionError
      (Exc.runtimeError "Failed to execute query: No connection or config provided.") = false :=
  ⟨rfl, rfl⟩

/-- C7 amended: every failure on the connection-resolution path of
`execute_query` surfaces as the generic `RuntimeError` wrapping of the
catch-all except-clause, not as a `ConnectionError`: with neither manager
nor config the call fails with
`RuntimeError "Failed to execute query: No connection or config provided."`,
and when the manager has no pool and pool creation fails the resulting
`ConnectionError` is rewrapped as
`RuntimeError ("Failed to execute query: Failed to connect to PostgreSQL: " ++ m)`.
The last conjunct keeps the true part of the claim: the driver never runs
the statement with a null pool — every normal return ends with a manager
holding a live pool. -/
theorem c7_failure_rewrapped_no_null_pool (cp : DbResult Pool) (pr : DbResult Unit)
    (fr : String → Pool → List Value → DbResult (List RawRow))
    (q : String) (ps : Option (List Value)) :
    (∀ d : PostgresDriver, d.connection = none → d.config = none →
      PostgresDriver.execute_query cp pr fr q ps d =
        (Except.error
          (Exc.runtimeError "Failed to execute query: No connection or config provided."),
          d)) ∧
    (∀ (d : PostgresDriver) (c : PostgresConnection) m,
      d.connection = some c → c.pool = none → cp = DbResult.pgError m →
      PostgresDriver.execute_query cp pr fr q ps d =
        (Except.error
          (Exc.runtimeError
            ("Failed to execute query: " ++ ("Failed to connect to PostgreSQL: " ++ m))),
          d)) ∧
    (∀ (d d1 : PostgresDriver) (o : Option (List RowResult)),
      PostgresDriver.execute_query cp pr fr q ps d = (Except.ok o, d1) →
      ∃ c1 p, d1.connection = some c1 ∧ c1.pool = some p) := by
  refine ⟨?_, ?_, ?_⟩
  · intro d h1 h2
    obtain ⟨dc, dcfg⟩ := d
    subst h1; subst h2
    rfl
  · intro d c m hdc hp hcp
    obtain ⟨dc, dcfg⟩ := d
    simp at hdc
    subst hdc; subst hcp
    simp [PostgresDriver.execute_query, executeQueryBody, executeWithConn,
      PostgresConnection.connect, hp, wrapQueryExc, Exc.msg]
  · intro d d1 o h
    unfold PostgresDriver.execute_query at h
    rcases hb : executeQueryBody cp pr fr q ps d with ⟨res, d2⟩
    rw [hb] at h
    cases res with
    | ok rows =>
      simp at h
      obtain ⟨p, c1, raws, hc1, hpool, _, _⟩ :=
        executeQueryBody_ok cp pr fr q ps d d2 rows hb
      exact ⟨c1, p, h.2 ▸ hc1, hpool⟩
    | error e => simp at h

/-- C7 witness: the amended theorem applied to a concrete driver with
neither manager nor config. -/
theorem c7_witness :
    ({ connection := none, config := none } : PostgresDriver).connection = none ∧
    ({ connection := none, config := none } : PostgresDriver).config = none ∧
    PostgresDriver.execute_query (DbResult.ok pool0) (DbResult.ok ()) frEmpty
      "SELECT 2" none { connection := none, config := none } =
      (Except.error
        (Exc.runtimeError "Failed to execute query: No connection or config provided."),
        { connection := none, config := none }) :=
  ⟨rfl, rfl,
    (c7_failure_rewrapped_no_null_pool (DbResult.ok pool0) (DbResult.ok ()) frEmpty
      "SELECT 2" none).1 { connection := none, config := none } rfl rfl⟩

/-- C8 counterexample: with neither manager nor config, `execute_query`
fails with the generic `RuntimeError` of the catch-all except-clause — the
same kind used for execution failures — and not with the `ValueError`
configuration-error kind raised by `PostgresDriver.connect`, refuting the
claimed distinct `ConfigurationError`. -/
theorem c8_counter :
    PostgresDriver.execute_query (DbResult.ok pool0) (DbResult.ok ()) frEmpty
      "SELECT 3" none { connection := none, config := none } =
      (Except.error
        (Exc.runtimeError "Failed to execute query: No connection or config provided."),
        { connection := none, config := none }) ∧
    Exc.isValueError
      (Exc.runtimeError "Failed to execute query: No connection or config provided.") = false :=
  ⟨rfl, rfl⟩

/-- C8 amended: the configuration-error kind exists only at the
`PostgresDriver.connect` level, which raises
`ValueError "No connection or config provided."` when neither manager nor
config is available; a call to `execute_query` in that state surfaces it
rewrapped by the catch-all except-clause as the generic execution-error kind
`RuntimeError "Failed to execute query: No connection or config provided."`,
indistinguishable by kind from other execution failures. -/
theorem c8_missing_config_wrapped :
    (PostgresDriver.connect { connection := none, config := none } =
      (Except.error (Exc.valueError "No connection or config provided."),
        { connection := none, config := none })) ∧
    (∀ cp pr fr q ps,
      PostgresDriver.execute_query cp pr fr q ps { connection := none, config := none } =
        (Except.error
          (Exc.runtimeError "Failed to execute query: No connection or config provided."),
          { connection := none, config := none })) :=
  ⟨rfl, fun _ _ _ _ _ => rfl⟩

/-- C9: a normal return of `execute_query` always carries `some` list of
RowResult values, never the absent value `none` admitted by the declared
return type; consequently the "No results" branch of the `execute_sql` tool,
taken only when the result is `None`, is unreachable. -/
theorem c9_result_never_none (cp : DbResult Pool) (pr : DbResult Unit)
    (fr : String → Pool → List Value → DbResult (List RawRow))
    (q : String) (ps : Option (List Value)) (d : PostgresDriver) :
    (∀ (o : Option (List RowResult)) d1,
      PostgresDriver.execute_query cp pr fr q ps d = (Except.ok o, d1) → o.isSome) ∧
    (execute_sql cp pr fr q d).1 ≠ SqlResponse.noResults := by
  have key : ∀ (ps1 : Option (List Value)) (o : Option (List RowResult)) d1,
      PostgresDriver.execute_query cp pr fr q ps1 d = (Except.ok o, d1) → o.isSome := by
    intro ps1 o d1 h
    unfold PostgresDriver.execute_query at h
    rcases hb : executeQueryBody cp pr fr q ps1 d with ⟨res, d2⟩
    rw [hb] at h
    cases res with
    | ok rows => simp at h; rw [← h.1]; simp
    | error e => simp at h
  refine ⟨key ps, ?_⟩
  rcases h : PostgresDriver.execute_query cp pr fr q none d with ⟨res, d1⟩
  unfold execute_sql
  rw [h]
  cases res with
  | ok o =>
    have ho := key none o d1 h
    cases o with
    | none => simp at ho
    | some rows => simp
  | error e => simp

/-- C9 witness: a concrete successful call returning `some []`, which is
indeed not the absent value. -/
theorem c9_witness :
    PostgresDriver.execute_query (DbResult.ok pool0) (DbResult.ok ()) frEmpty
      "SELECT 1" none drv0 = (Except.ok (some []), drv0) ∧
    (some ([] : List RowResult)).isSome :=
  ⟨rfl,
    (c9_result_never_none (DbResult.ok pool0) (DbResult.ok ()) frEmpty
      "SELECT 1" none drv0).1 (some []) drv0 rfl⟩

/-- C10: once the connection field of a driver is set it is never replaced:
`PostgresDriver.connect` returns the stored manager and leaves the driver
state unchanged, and `execute_query` leaves the connection field holding the
same manager object — with the same config, at most with its pool field
updated in place — and never mutates the config field of the driver. -/
theorem c10_connection_and_config_stable (d : PostgresDriver)
    (c : PostgresConnection) (hdc : d.connection = some c) :
    PostgresDriver.connect d = (Except.ok c, d) ∧
    ∀ cp pr fr q ps,
      (PostgresDriver.execute_query cp pr fr q ps d).2.config = d.config ∧
      ∃ pl, (PostgresDriver.execute_query cp pr fr q ps d).2.connection =
        some { config := c.config, pool := pl } := by
  constructor
  · simp [PostgresDriver.connect, hdc]
  · intro cp pr fr q ps
    refine ⟨execute_query_config cp pr fr q ps d, ?_⟩
    obtain ⟨pl, hpl⟩ := executeQueryBody_connection cp pr fr q ps d c hdc
    refine ⟨pl, ?_⟩
    unfold PostgresDriver.execute_query
    rcases h : executeQueryBody cp pr fr q ps d with ⟨res, d2⟩
    rw [h] at hpl
    cases res <;> simpa using hpl

/-- C10 witness: the theorem applied to a concrete driver with a bound
manager. -/
theorem c10_witness :
    drv0.connection = some conn0 ∧
    PostgresDriver.connect drv0 = (Except.ok conn0, drv0) :=
  ⟨rfl, (c10_connection_and_config_stable drv0 conn0 rfl).1⟩
